import Mathlib

/-!
Shallow embedding of the Noda instrumentation layer:
the plugin loader (`cmd/pluginManage/pluginSetUp.go`) and the instrumented
state processor (`core` package: `Process`, `applyTransaction`,
`ApplyTransaction`).  Machine integers that cannot overflow in the modelled
paths are represented by `Nat`/`Int`; external collaborators (state database,
hashing, EVM execution) are passed in as explicit inputs, and the observable
actions of the instrumentation (handler dispatches, snapshot reverts, plugin
registration, lifecycle start/stop) are recorded in an event trace.
-/

/-! ## Opcode registry

`PluginManages` and its methods (`RegisterOpcode`, `GetOpcodeRegister`,
`SendDataToPlugin`, `UnRegisterPlg`, `Start`, `Stop`) live in the
`pluginManage` package whose manager file is not part of the shown sources;
only `pluginSetUp.go` is.  The registry itself is therefore modelled from the
spec (see the doc comments on the individual operations). -/

/-- A handler binding: the owning extension's name and the handler symbol the
descriptor names for the event (`monitor.SetPluginName` / `SetSendFunc`). -/
structure Binding where
  owner : String
  sendFunc : String
deriving DecidableEq

/-- Modelled from the spec: the Opcode Registry is "a process-wide table
mapping event names to bound handlers" with at most one binding per event
name.  We realise it as an association list without duplicate keys. -/
structure Registry where
  bindings : List (String × Binding)
deriving DecidableEq

/-- Lookup in an association list: first entry with the given key. -/
def lookupB : List (String × Binding) → String → Option Binding
  | [], _ => none
  | (k, b) :: rest, n => if k = n then some b else lookupB rest n

/-- Insert with overwrite: replaces the binding of an existing key in place,
otherwise appends at the end. -/
def insertBinding : List (String × Binding) → String → Binding → List (String × Binding)
  | [], k, b => [(k, b)]
  | (k0, b0) :: rest, k, b =>
      if k0 = k then (k, b) :: rest else (k0, b0) :: insertBinding rest k b

/-- Modelled from the spec: `Lookup(eventName) -> binding | absent`. -/
def Registry.lookup (r : Registry) (n : String) : Option Binding :=
  lookupB r.bindings n

/-- Modelled from the spec: `IsRegistered(eventName)`; the source calls this
`GetOpcodeRegister`. -/
def Registry.getOpcodeRegister (r : Registry) (n : String) : Bool :=
  (r.lookup n).isSome

/-- Modelled from the spec: `Register(eventName, binding)`, "registration is
last-writer-wins per event name"; the source calls this `RegisterOpcode`. -/
def Registry.registerOpcode (r : Registry) (n : String) (b : Binding) : Registry :=
  ⟨insertBinding r.bindings n b⟩

/-- Modelled from the spec: `UnregisterOwner(ownerName)` removes every binding
whose `ownerName` matches; the source calls this `UnRegisterPlg` and takes the
owner name from the pending-request value. -/
def unRegisterPlg (r : Registry) (owner : String) : Registry :=
  ⟨r.bindings.filter (fun p => p.2.owner ≠ owner)⟩

/-! ## Extension artifact and `RegisterPlugin` (pluginSetUp.go, lines 36-97) -/

/-- The decoded extension descriptor, schema
`{"pluginname": string, "option": mapping<string,string>}` (`RegisterInfo`
in pluginSetUp.go).  The Go `option` map is carried as a list of
(opcode, handler-symbol) pairs. -/
structure RegisterInfo where
  PluginName : String
  OpCode : List (String × String)
deriving DecidableEq

/-- A plugin artifact as `RegisterPlugin` observes it through the `plugin`
package: whether `plugin.Open` succeeds, whether the `Register` symbol is
present and has type `func() []byte`, what descriptor (if any)
`json.Unmarshal` decodes from its result, and for every exported symbol name
whether it is present (`none` = missing) and has the expected handler
signature (`some true`) or a wrong one (`some false`). -/
structure Artifact where
  openOk : Bool
  registerSymPresent : Bool
  registerSymTyped : Bool
  decoded : Option RegisterInfo
  handlerSym : String → Option Bool

/-- Outcome of a `RegisterPlugin` run: `os.Exit`, `panic`, or normal return
with the updated registry. -/
inductive LoadResult where
  | exit (code : Int)
  | panicked
  | ok (reg : Registry)

/-- Predicate: `true` when the load terminated the process (exit or panic). -/
def LoadResult.isFatal : LoadResult → Bool
  | .exit _ => true
  | .panicked => true
  | .ok _ => false

/-- The registration loop of `RegisterPlugin` (pluginSetUp.go lines 74-94):
for each `(opcode, sendfunc)` pair, look the handler symbol up (missing →
`panic`), type-assert it (wrong shape → `os.Exit(0)`), and
`RegisterOpcode` it under the opcode. -/
def registerHandlers (a : Artifact) (name : String) :
    List (String × String) → Registry → LoadResult
  | [], reg => .ok reg
  | (opcode, sendfunc) :: rest, reg =>
      match a.handlerSym sendfunc with
      | none => .panicked
      | some false => .exit 0
      | some true => registerHandlers a name rest (reg.registerOpcode opcode ⟨name, sendfunc⟩)

/-- Function `RegisterPlugin` (pluginSetUp.go lines 36-97): open the artifact
(`os.Exit(-1)` on failure), look up `Register` (`panic` when missing),
type-assert it to `func() []byte` (`panic` when wrong), decode the descriptor
(`panic` on decode failure), then run the registration loop. -/
def RegisterPlugin (reg : Registry) (a : Artifact) : LoadResult :=
  if a.openOk = false then .exit (-1)
  else if a.registerSymPresent = false then .panicked
  else if a.registerSymTyped = false then .panicked
  else
    match a.decoded with
    | none => .panicked
    | some info => registerHandlers a info.PluginName info.OpCode reg

/-- The pure effect of a successful registration loop on the registry. -/
def insertAll (name : String) : List (String × String) → Registry → Registry
  | [], reg => reg
  | (opcode, sendfunc) :: rest, reg =>
      insertAll name rest (reg.registerOpcode opcode ⟨name, sendfunc⟩)

/-- A load-time contract violation in the sense of the spec's error taxonomy. -/
def loadViolation (a : Artifact) : Prop :=
  a.openOk = false ∨ a.registerSymPresent = false ∨ a.registerSymTyped = false ∨
    a.decoded = none ∨
    ∃ info, a.decoded = some info ∧ ∃ p ∈ info.OpCode, a.handlerSym p.2 ≠ some true

/-! ## Data model of the instrumented state processor (part_000)

The `dzd` and `dan` packages of the repository only declare package-level
variables; their contents are fully determined by the uses in part_000 and
are collected here into explicit state records. -/

/-- The `dzd` package globals used by part_000 (lines 130-131, 212,
256-269). -/
structure DzdState where
  CALL_LAYER : Int
  CALL_STACK : List String
  ALL_STACK : List String
  EXTERNAL_FLAG : Bool
  BLOCKING_FLAG : Bool
  PLUGIN_SNAPSHOT_ID : Int
  CALLVALID_MAP : List (Int × Bool)
  TxHash : String
deriving DecidableEq

/-- The `dan` package globals used by part_000 (lines 239-254): the pending
hot-reconfiguration requests. -/
structure DanState where
  IsReg : Bool
  RegPath : String
  IsUn : Bool
  UnPlg : String
deriving DecidableEq

/-- Modelled from the spec: `dan.Clear`, the sentinel value the pending
request strings are reset to once drained (the `dan` package is not among
the shown sources). -/
def Clear : String := ""

/-- The fields of a transaction message (`types.Message`) that part_000
reads.  Fields rendered with `.String()` in the source are carried in
rendered form. -/
structure Msg where
  From : String
  To : Option String
  Value : String
  GasPrice : String
  Gas : Nat
  Data : List Nat
deriving DecidableEq

/-- The fields of a transaction (`types.Transaction`) that part_000 reads. -/
structure TxInfo where
  hash : String
  nonce : Nat
  ty : Nat
deriving DecidableEq

/-- The block-header fields part_000 reads.  `Number`, `Difficulty`,
`GasLimit`, `GasUsed`, `Time` and `Nonce` are numbers; hash-like fields are
carried as their rendered strings; `Hash` is the header hash
(`header.Hash()` / `block.Hash()`). -/
structure Header where
  Number : Nat
  Hash : String
  ParentHash : String
  UncleHash : String
  Coinbase : String
  Root : String
  TxHash : String
  ReceiptHash : String
  Difficulty : Nat
  GasLimit : Nat
  GasUsed : Nat
  Time : Nat
  Extra : List Nat
  MixDigest : String
  Nonce : Nat
deriving DecidableEq

/-- The outcome of `ApplyMessage` (external collaborator): gas used and
whether the execution reverted (`result.Failed()`). -/
structure ExecResult where
  UsedGas : Nat
  failed : Bool
deriving DecidableEq

/-- Opaque external collaborators of `applyTransaction`: the state database
queries, address derivation, logs/bloom/receipt plumbing.  Supplied as
inputs; the instrumentation only copies their results around. -/
structure ExtEnv where
  postRoot : List Nat
  createAddress : String → Nat → String
  exist : String → Bool
  getCode : String → List Nat
  logs : List String
  bloom : String
  txIndex : Nat

/-- The chain-config predicates applyTransaction consults (evaluated at the
current block number). -/
structure Config where
  isByzantium : Bool
  isEIP158 : Bool
deriving DecidableEq

/-! ## Collectors (package `collector`, external; zero values per Go) -/

/-- Structure `collector.BlockCollector`: fields set by `Process` (lines 80-95). -/
structure BlockCollector where
  Op : String
  ParentHash : String
  UncleHash : String
  Coinbase : String
  StateRoot : String
  TxHashRoot : String
  ReceiptHash : String
  Difficulty : String
  Number : String
  GasLimit : Nat
  GasUsed : Nat
  Time : Nat
  Extra : List Nat
  MixDigest : String
  Nonce : Nat
deriving DecidableEq

/-- Structure `collector.CallCollector`: fields set by part_000. -/
structure CallCollector where
  ContractCode : List Nat
  InputData : List Nat
deriving DecidableEq

/-- Structure `collector.CreateCollector`: fields set by part_000. -/
structure CreateCollector where
  ContractAddr : String
  ContractDeployCode : List Nat
  ContractRuntimeCode : List Nat
deriving DecidableEq

/-- Structure `collector.TransCollector`: fields set by part_000. -/
structure TransCollector where
  Op : String
  TxHash : String
  GasUsed : Nat
  CallLayer : Nat
  IsSuccess : Bool
  CallType : String
  To : String
  BlockNumber : String
  BlockTime : String
  From : String
  Value : String
  GasPrice : String
  GasLimit : Nat
  Nonce : Nat
  CallInfo : CallCollector
  CreateInfo : CreateCollector
deriving DecidableEq

/-- Constructor `collector.NewCallCollector()`: zero value. -/
def NewCallCollector : CallCollector := { ContractCode := [], InputData := [] }

/-- Constructor `collector.NewCreateCollector()`: zero value. -/
def NewCreateCollector : CreateCollector :=
  { ContractAddr := "", ContractDeployCode := [], ContractRuntimeCode := [] }

/-- Constructor `collector.NewTransCollector()`: zero value. -/
def NewTransCollector : TransCollector :=
  { Op := "", TxHash := "", GasUsed := 0, CallLayer := 0, IsSuccess := false,
    CallType := "", To := "", BlockNumber := "", BlockTime := "", From := "",
    Value := "", GasPrice := "", GasLimit := 0, Nonce := 0,
    CallInfo := NewCallCollector, CreateInfo := NewCreateCollector }

/-- An event payload handed to `SendDataToPlugin`: the serialized collector
(`SendBlockInfo` / `SendTransInfo`) or a bare flag (`collector.SendFlag`). -/
inductive Payload where
  | pblock (b : BlockCollector)
  | ptrans (t : TransCollector)
  | pflag (s : String)
deriving DecidableEq

/-- The observable actions of the instrumentation layer, in program order. -/
inductive Event where
  | dispatch (name : String) (p : Payload)
  | revert (snapshotId : Int)
  | regPlugin (path : String)
  | unregPlugin
  | start
  | stop
deriving DecidableEq

/-- Predicate: `true` on a dispatch of the given event name. -/
def isDispatchOf (e : String) : Event → Bool
  | .dispatch n _ => n = e
  | _ => false

/-- Predicate: `true` on a `RevertToSnapshot` instruction to the state store. -/
def isRevertEvent : Event → Bool
  | .revert _ => true
  | _ => false

/-- Predicate: `true` on a hot-reconfiguration action (plugin register/unregister). -/
def isReconfigEvent : Event → Bool
  | .regPlugin _ => true
  | .unregPlugin => true
  | _ => false

/-- Predicate: `true` on the dispatcher `Stop()` call. -/
def isStopEvent : Event → Bool
  | .stop => true
  | _ => false

/-! ## `applyTransaction` (part_000 lines 121-220) -/

/-- Receipt fields assembled by `applyTransaction` (lines 163-197). -/
structure Receipt where
  TxType : Nat
  PostState : List Nat
  CumulativeGasUsed : Nat
  Status : Nat
  TxHash : String
  GasUsed : Nat
  ContractAddress : String
  Logs : List String
  Bloom : String
  BlockHash : String
  BlockNumber : Nat
  TransactionIndex : Nat
deriving DecidableEq

/-- Constant `types.ReceiptStatusFailed`. -/
def ReceiptStatusFailed : Nat := 0

/-- Constant `types.ReceiptStatusSuccessful`. -/
def ReceiptStatusSuccessful : Nat := 1

/-- Lines 130-132: if `dzd.BLOCKING_FLAG` is set, instruct the state store to
revert to `dzd.PLUGIN_SNAPSHOT_ID`.  (The flag is left untouched here.) -/
def revertTrace (d : DzdState) : List Event :=
  if d.BLOCKING_FLAG = true then [.revert d.PLUGIN_SNAPSHOT_ID] else []

/-- Lines 133-141: `tcend := collector.NewTransCollector()` unconditionally;
its header fields are populated only when `EXTERNALINFOEND` is registered. -/
def tcendInit (reg : Registry) (tx : TxInfo) (result : ExecResult) : TransCollector :=
  if reg.getOpcodeRegister "EXTERNALINFOEND" then
    { NewTransCollector with
      Op := "EXTERNALINFOEND", TxHash := tx.hash,
      GasUsed := result.UsedGas, CallLayer := 1 }
  else NewTransCollector

/-- Lines 144-152: on an `ApplyMessage` error, dispatch `EXTERNALINFOEND`
with `IsSuccess := false` when registered, then return the error. -/
def errEndTrace (reg : Registry) (tx : TxInfo) (result : ExecResult) : List Event :=
  if reg.getOpcodeRegister "EXTERNALINFOEND" then
    [.dispatch "EXTERNALINFOEND" (.ptrans { tcendInit reg tx result with IsSuccess := false })]
  else []

/-- Line 176: `crypto.CreateAddress(evm.TxContext.Origin, tx.Nonce())`;
`NewEVMTxContext` sets the origin to `msg.From()`. -/
def createdAddress (ext : ExtEnv) (msg : Msg) (tx : TxInfo) : String :=
  ext.createAddress msg.From tx.nonce

/-- Lines 174-190: when the message has no target (contract creation) and
`EXTERNALINFOEND` is registered, record the creation data on `tcend`. -/
def tcendAfterCreate (reg : Registry) (ext : ExtEnv) (tx : TxInfo) (msg : Msg)
    (result : ExecResult) : TransCollector :=
  match msg.To with
  | none =>
      if reg.getOpcodeRegister "EXTERNALINFOEND" then
        { tcendInit reg tx result with
          CallType := "CREATE",
          To := createdAddress ext msg tx,
          CreateInfo :=
            { NewCreateCollector with
              ContractAddr := createdAddress ext msg tx,
              ContractDeployCode := msg.Data,
              ContractRuntimeCode :=
                if ext.exist (createdAddress ext msg tx) then
                  ext.getCode (createdAddress ext msg tx)
                else NewCreateCollector.ContractRuntimeCode } }
      else tcendInit reg tx result
  | some _ => tcendInit reg tx result

/-- Lines 200-210: dispatch `EXTERNALINFOEND` with `IsSuccess` reflecting
`result.Failed()`, when registered. -/
def finEndTrace (reg : Registry) (ext : ExtEnv) (tx : TxInfo) (msg : Msg)
    (result : ExecResult) : List Event :=
  if result.failed = false then
    if reg.getOpcodeRegister "EXTERNALINFOEND" then
      [.dispatch "EXTERNALINFOEND"
        (.ptrans { tcendAfterCreate reg ext tx msg result with IsSuccess := true })]
    else []
  else
    if reg.getOpcodeRegister "EXTERNALINFOEND" then
      [.dispatch "EXTERNALINFOEND"
        (.ptrans { tcendAfterCreate reg ext tx msg result with IsSuccess := false })]
    else []

/-- Lines 214-217: when `TXEND` is registered, dispatch it and stop the
dispatcher. -/
def txendTrace (reg : Registry) : List Event :=
  if reg.getOpcodeRegister "TXEND" then
    [.dispatch "TXEND" (.pflag "TXEND"), .stop]
  else []

/-- Lines 154-197: the receipt assembled from the execution outcome and the
external collaborators. -/
def mkReceipt (config : Config) (ext : ExtEnv) (blockNumber : Nat) (blockHash : String)
    (tx : TxInfo) (msg : Msg) (result : ExecResult) (usedGas1 : Nat) : Receipt :=
  let root : List Nat := if config.isByzantium then [] else ext.postRoot
  let r : Receipt :=
    { TxType := tx.ty, PostState := root, CumulativeGasUsed := usedGas1,
      Status := if result.failed then ReceiptStatusFailed else ReceiptStatusSuccessful,
      TxHash := tx.hash, GasUsed := result.UsedGas, ContractAddress := "",
      Logs := [], Bloom := "", BlockHash := "", BlockNumber := 0,
      TransactionIndex := 0 }
  let r : Receipt :=
    match msg.To with
    | none => { r with ContractAddress := createdAddress ext msg tx }
    | some _ => r
  { r with
    Logs := ext.logs, Bloom := ext.bloom, BlockHash := blockHash,
    BlockNumber := blockNumber, TransactionIndex := ext.txIndex }

/-- Result of a `applyTransaction` run: a Go slice-bounds panic at the
line-212 pop, an error return, or a receipt. -/
inductive ApplyRes where
  | goPanic
  | errReturn
  | okReturn (receipt : Receipt)
deriving DecidableEq

/-- Predicate: `true` when the run returned a receipt. -/
def ApplyRes.isOk : ApplyRes → Bool
  | .okReturn _ => true
  | _ => false

/-- Output of `applyTransaction`: the result, the `dzd` globals after the
run, the accumulated `usedGas`, and the event trace. -/
structure ApplyOut where
  res : ApplyRes
  dzd : DzdState
  usedGas : Nat
  trace : List Event
deriving DecidableEq

/-- Function `applyTransaction` (part_000 lines 121-220), beginning after
`ApplyMessage` has returned: `execErr`/`result` are its outcome and `d` is
the `dzd` state it left behind (nested-call hooks of the interpreter may
have modified it).  Line 212 pops the top call frame via
`CALL_STACK[:len(CALL_STACK)-1]`, which panics when the stack is empty. -/
def applyTransaction (reg : Registry) (config : Config) (ext : ExtEnv)
    (blockNumber : Nat) (blockHash : String) (tx : TxInfo) (msg : Msg)
    (execErr : Bool) (result : ExecResult) (usedGas : Nat) (d : DzdState) : ApplyOut :=
  if execErr then
    { res := .errReturn, dzd := d, usedGas := usedGas,
      trace := revertTrace d ++ errEndTrace reg tx result }
  else
    let usedGas1 := usedGas + result.UsedGas
    let receipt := mkReceipt config ext blockNumber blockHash tx msg result usedGas1
    if d.CALL_STACK = [] then
      { res := .goPanic, dzd := d, usedGas := usedGas1,
        trace := revertTrace d ++ finEndTrace reg ext tx msg result }
    else
      { res := .okReturn receipt,
        dzd := { d with CALL_STACK := d.CALL_STACK.dropLast },
        usedGas := usedGas1,
        trace := revertTrace d ++ finEndTrace reg ext tx msg result ++ txendTrace reg }

/-! ## `ApplyTransaction` (part_000 lines 226-306) -/

/-- Lines 256-269: the transaction-start reset of the `dzd` globals, followed
by the conditional push of the initial call frame when the message has a
direct target. -/
def txStartReset (txHash : String) (msgTo : Option String) : DzdState :=
  let d : DzdState :=
    { CALL_LAYER := 0, CALL_STACK := [], ALL_STACK := [], EXTERNAL_FLAG := true,
      BLOCKING_FLAG := false, PLUGIN_SNAPSHOT_ID := 0, CALLVALID_MAP := [],
      TxHash := txHash }
  match msgTo with
  | none => d
  | some target =>
      let d := { d with CALL_LAYER := d.CALL_LAYER + 1 }
      let d :=
        { d with
          CALL_STACK := d.CALL_STACK ++ [target ++ "#" ++ toString d.CALL_LAYER] }
      { d with ALL_STACK := d.ALL_STACK ++ [target] }

/-- Lines 271-273: dispatch `TXSTART` when registered. -/
def startTxTrace (reg : Registry) : List Event :=
  if reg.getOpcodeRegister "TXSTART" then
    [.dispatch "TXSTART" (.pflag "TXSTART")]
  else []

/-- Lines 275-299: `tcstart`, populated when `EXTERNALINFOSTART` is
registered; `blockContext` carries `header.Number`/`header.Time`. -/
def tcstartBuild (ext : ExtEnv) (header : Header) (tx : TxInfo) (msg : Msg) :
    TransCollector :=
  let t : TransCollector :=
    { NewTransCollector with
      Op := "EXTERNALINFOSTART", TxHash := tx.hash,
      BlockNumber := toString header.Number, BlockTime := toString header.Time,
      From := msg.From, Value := msg.Value, GasPrice := msg.GasPrice,
      GasLimit := msg.Gas, Nonce := tx.nonce, CallLayer := 1 }
  match msg.To with
  | some target =>
      { t with
        CallType := "CALL", To := target,
        CallInfo :=
          { NewCallCollector with
            ContractCode :=
              if ext.exist target then ext.getCode target
              else NewCallCollector.ContractCode,
            InputData := msg.Data } }
  | none => t

/-- Lines 278-302: dispatch `EXTERNALINFOSTART` when registered. -/
def externalStartTrace (reg : Registry) (ext : ExtEnv) (header : Header)
    (tx : TxInfo) (msg : Msg) : List Event :=
  if reg.getOpcodeRegister "EXTERNALINFOSTART" then
    [.dispatch "EXTERNALINFOSTART" (.ptrans (tcstartBuild ext header tx msg))]
  else []

/-- Result of the exported `ApplyTransaction`: additionally the process may
have been terminated by a fatal `RegisterPlugin` run while draining a
pending registration request. -/
inductive TopRes where
  | procExit
  | goPanic
  | errReturn
  | okReturn (receipt : Receipt)
deriving DecidableEq

/-- Embed a `applyTransaction` result. -/
def ApplyRes.toTop : ApplyRes → TopRes
  | .goPanic => .goPanic
  | .errReturn => .errReturn
  | .okReturn r => .okReturn r

/-- Output of the exported `ApplyTransaction`: result, registry, `dan` and
`dzd` states, accumulated gas and event trace. -/
structure ApplyTOut where
  res : TopRes
  reg : Registry
  dan : DanState
  dzd : DzdState
  usedGas : Nat
  trace : List Event
deriving DecidableEq

/-- Lines 256-305: reset the per-transaction `dzd` state, dispatch `TXSTART`
and `EXTERNALINFOSTART` when registered, then run `applyTransaction`.
`execEffect` is the opaque effect of `ApplyMessage` (nested-call
instrumentation hooks of the interpreter, extension-set rollback flags) on
the `dzd` globals. -/
def applyTransactionAfterDrain (config : Config) (ext : ExtEnv) (header : Header)
    (tx : TxInfo) (msg : Msg) (execEffect : DzdState → DzdState) (execErr : Bool)
    (result : ExecResult) (usedGas : Nat) (reg : Registry) (dn : DanState) : ApplyTOut :=
  let d := txStartReset tx.hash msg.To
  let out := applyTransaction reg config ext header.Number header.Hash tx msg
    execErr result usedGas (execEffect d)
  { res := out.res.toTop, reg := reg, dan := dn, dzd := out.dzd,
    usedGas := out.usedGas,
    trace := startTxTrace reg ++ externalStartTrace reg ext header tx msg ++ out.trace }

/-- Lines 250-254: drain a pending unregister request (`dan.IsUn`), then
continue with the transaction-start work. -/
def applyTransactionAfterReg (config : Config) (ext : ExtEnv) (header : Header)
    (tx : TxInfo) (msg : Msg) (execEffect : DzdState → DzdState) (execErr : Bool)
    (result : ExecResult) (usedGas : Nat) (reg : Registry) (dn : DanState) : ApplyTOut :=
  if dn.IsUn then
    let reg1 := unRegisterPlg reg dn.UnPlg
    let out := applyTransactionAfterDrain config ext header tx msg execEffect
      execErr result usedGas reg1 { dn with IsUn := false, UnPlg := Clear }
    { out with trace := .unregPlugin :: out.trace }
  else
    applyTransactionAfterDrain config ext header tx msg execEffect
      execErr result usedGas reg dn

/-- Function `ApplyTransaction` (part_000 lines 226-306): convert the transaction to a
message (early error return on failure, before any instrumentation), start
the dispatcher, drain the pending register request (`dan.IsReg`, lines
239-248; a fatal `RegisterPlugin` terminates the process) and the pending
unregister request, reset the per-transaction state, dispatch the
start-of-transaction events and run `applyTransaction`.  `artifactAt` maps a
filesystem path to the plugin artifact found there. -/
def ApplyTransaction (config : Config) (ext : ExtEnv)
    (artifactAt : String → Artifact) (header : Header) (tx : TxInfo)
    (msgErr : Bool) (msg : Msg) (execEffect : DzdState → DzdState)
    (execErr : Bool) (result : ExecResult) (usedGas : Nat) (reg : Registry)
    (dn : DanState) (d0 : DzdState) : ApplyTOut :=
  if msgErr then
    { res := .errReturn, reg := reg, dan := dn, dzd := d0, usedGas := usedGas,
      trace := [] }
  else if dn.IsReg then
    match RegisterPlugin reg (artifactAt dn.RegPath) with
    | .exit _ =>
        { res := .procExit, reg := reg, dan := dn, dzd := d0, usedGas := usedGas,
          trace := [.start, .regPlugin dn.RegPath] }
    | .panicked =>
        { res := .procExit, reg := reg, dan := dn, dzd := d0, usedGas := usedGas,
          trace := [.start, .regPlugin dn.RegPath] }
    | .ok reg1 =>
        let out := applyTransactionAfterReg config ext header tx msg execEffect
          execErr result usedGas reg1 { dn with RegPath := Clear, IsReg := false }
        { out with trace := .start :: .regPlugin dn.RegPath :: out.trace }
  else
    let out := applyTransactionAfterReg config ext header tx msg execEffect
      execErr result usedGas reg dn
    { out with trace := .start :: out.trace }

/-! ## `Process` (part_000 lines 64-119) -/

/-- Per-transaction inputs of the `Process` loop: the `AsMessage` outcome,
the message and transaction fields, the opaque `ApplyMessage` effect on the
`dzd` globals, its error/result, and the external collaborators for this
transaction. -/
structure TxInput where
  msgErr : Bool
  msg : Msg
  tx : TxInfo
  execEffect : DzdState → DzdState
  execErr : Bool
  result : ExecResult
  ext : ExtEnv

/-- Result of a `Process` run. -/
inductive ProcessRes where
  | errRes
  | panicRes
  | okRes (receipts : List Receipt)
deriving DecidableEq

/-- Output of `Process`: result, final `dzd` globals, accumulated gas and
event trace. -/
structure ProcOut where
  res : ProcessRes
  dzd : DzdState
  usedGas : Nat
  trace : List Event

/-- Lines 102-114: the transaction loop of `Process`.  Each iteration
converts the transaction to a message (early error return) and calls the
lower-case `applyTransaction` — with no transaction-start reset and no
start-of-transaction dispatches. -/
def processTxs (reg : Registry) (config : Config) (blockNumber : Nat)
    (blockHash : String) : List TxInput → DzdState → Nat → ProcOut
  | [], d, g => { res := .okRes [], dzd := d, usedGas := g, trace := [] }
  | t :: rest, d, g =>
      if t.msgErr then { res := .errRes, dzd := d, usedGas := g, trace := [] }
      else
        let out := applyTransaction reg config t.ext blockNumber blockHash t.tx
          t.msg t.execErr t.result g (t.execEffect d)
        match out.res with
        | .goPanic =>
            { res := .panicRes, dzd := out.dzd, usedGas := out.usedGas,
              trace := out.trace }
        | .errReturn =>
            { res := .errRes, dzd := out.dzd, usedGas := out.usedGas,
              trace := out.trace }
        | .okReturn r =>
            let pout := processTxs reg config blockNumber blockHash rest out.dzd out.usedGas
            { res :=
                match pout.res with
                | .okRes rs => .okRes (r :: rs)
                | x => x,
              dzd := pout.dzd, usedGas := pout.usedGas,
              trace := out.trace ++ pout.trace }

/-- Lines 80-95: the block collector built by `Process`; `header.Number` is
rendered in decimal (`big.Int.String`). -/
def blockCollectorBuild (header : Header) : BlockCollector :=
  { Op := "Block" ++ toString header.Number,
    ParentHash := header.ParentHash, UncleHash := header.UncleHash,
    Coinbase := header.Coinbase, StateRoot := header.Root,
    TxHashRoot := header.TxHash, ReceiptHash := header.ReceiptHash,
    Difficulty := toString header.Difficulty, Number := toString header.Number,
    GasLimit := header.GasLimit, GasUsed := header.GasUsed, Time := header.Time,
    Extra := header.Extra, MixDigest := header.MixDigest, Nonce := header.Nonce }

/-- Function `Process` (part_000 lines 64-119): when `handle_BLOCK_INFO` is
registered, build the block collector and dispatch it once, before any
transaction of the block is processed; then run the transaction loop. -/
def blockInfoTrace (reg : Registry) (header : Header) : List Event :=
  if reg.getOpcodeRegister "handle_BLOCK_INFO" then
    [.dispatch "handle_BLOCK_INFO" (.pblock (blockCollectorBuild header))]
  else []

/-- Lines 64-119: `Process` proper — the block-info dispatch followed by the
transaction loop. -/
def Process (reg : Registry) (config : Config) (header : Header)
    (txs : List TxInput) (d0 : DzdState) : ProcOut :=
  let pout := processTxs reg config header.Number header.Hash txs d0 0
  { pout with trace := blockInfoTrace reg header ++ pout.trace }

/-! ## Concrete fixtures used by witnesses and counterexamples -/

/-- An artifact whose `plugin.Open` fails: a load-time contract violation. -/
def badArtifact : Artifact :=
  { openOk := false, registerSymPresent := true, registerSymTyped := true,
    decoded := none, handlerSym := fun _ => none }

/-- An artifact that passes every load-time check and declares two opcodes. -/
def goodArtifact : Artifact :=
  { openOk := true, registerSymPresent := true, registerSymTyped := true,
    decoded := some { PluginName := "ext1",
                      OpCode := [("TXEND", "OnTxEnd"), ("TXSTART", "OnTxStart")] },
    handlerSym := fun s =>
      if s = "OnTxEnd" then some true
      else if s = "OnTxStart" then some true else none }


/-- A trivial external environment. -/
def extC : ExtEnv :=
  { postRoot := [], createAddress := fun _ _ => "0xC", exist := fun _ => false,
    getCode := fun _ => [], logs := [], bloom := "", txIndex := 0 }

/-- A chain configuration fixture. -/
def cfgC : Config := { isByzantium := true, isEIP158 := true }

/-- A transaction fixture. -/
def txC : TxInfo := { hash := "0xT", nonce := 0, ty := 0 }

/-- A message with a direct target address. -/
def msgC : Msg :=
  { From := "0xF", To := some "0xA", Value := "0", GasPrice := "1",
    Gas := 21000, Data := [] }

/-- A contract-creation message (no target address). -/
def msgCreateC : Msg := { msgC with To := none }

/-- A successful execution result. -/
def resC : ExecResult := { UsedGas := 21000, failed := false }

/-- The `dzd` state right after a transaction-start reset for `msgC`. -/
def dC : DzdState := txStartReset "0xT" (some "0xA")

/-- A zero `dzd` state. -/
def dCz : DzdState := txStartReset "" none

/-- Fixture `dC` with the rollback flag raised and a recorded snapshot id. -/
def dFlagC : DzdState := { dC with BLOCKING_FLAG := true, PLUGIN_SNAPSHOT_ID := 5 }

/-- No pending hot-reconfiguration requests. -/
def dnIdle : DanState := { IsReg := false, RegPath := "", IsUn := false, UnPlg := "" }

/-- Both hot-reconfiguration requests pending. -/
def dnBusy : DanState := { IsReg := true, RegPath := "/p/a.so", IsUn := true, UnPlg := "old" }

/-- A registry binding only `EXTERNALINFOEND`. -/
def regEIE : Registry := ⟨[("EXTERNALINFOEND", ⟨"ext1", "OnEnd"⟩)]⟩

/-- A registry binding `EXTERNALINFOEND` and `TXEND`. -/
def regTXEIE : Registry :=
  ⟨[("EXTERNALINFOEND", ⟨"ext1", "OnEnd"⟩), ("TXEND", ⟨"ext1", "OnTxEnd"⟩)]⟩

/-- A registry binding only `handle_BLOCK_INFO`. -/
def regBlk : Registry := ⟨[("handle_BLOCK_INFO", ⟨"ext1", "OnBlock"⟩)]⟩

/-- A valid artifact declaring no opcodes. -/
def emptyOpsArtifact : Artifact :=
  { openOk := true, registerSymPresent := true, registerSymTyped := true,
    decoded := some { PluginName := "p0", OpCode := [] },
    handlerSym := fun _ => none }

/-- A block-header fixture with block number 100. -/
def hdrC : Header :=
  { Number := 100, Hash := "0xH", ParentHash := "", UncleHash := "",
    Coinbase := "", Root := "", TxHash := "", ReceiptHash := "",
    Difficulty := 0, GasLimit := 0, GasUsed := 0, Time := 0, Extra := [],
    MixDigest := "", Nonce := 0 }

/-! # Theorems -/

/-! ### Registry lemmas -/

theorem lookupB_insert_self (l : List (String × Binding)) (k : String) (b : Binding) :
    lookupB (insertBinding l k b) k = some b := by
  induction l with
  | nil => simp [insertBinding, lookupB]
  | cons hd tl ih =>
      obtain ⟨k0, b0⟩ := hd
      by_cases hk : k0 = k
      · simp [insertBinding, hk, lookupB]
      · simp [insertBinding, hk, lookupB, ih]

theorem lookupB_insert_ne (l : List (String × Binding)) (k k' : String) (b : Binding)
    (h : k' ≠ k) : lookupB (insertBinding l k b) k' = lookupB l k' := by
  induction l with
  | nil => simp [insertBinding, lookupB, Ne.symm h]
  | cons hd tl ih =>
      obtain ⟨k0, b0⟩ := hd
      by_cases hk : k0 = k
      · subst hk
        simp [insertBinding, lookupB, Ne.symm h]
      · simp only [insertBinding, if_neg hk, lookupB]
        by_cases hk' : k0 = k'
        · simp [hk']
        · simp [hk', ih]

theorem length_insert_not_mem (l : List (String × Binding)) (k : String) (b : Binding)
    (h : lookupB l k = none) : (insertBinding l k b).length = l.length + 1 := by
  induction l with
  | nil => simp [insertBinding]
  | cons hd tl ih =>
      obtain ⟨k0, b0⟩ := hd
      by_cases hk : k0 = k
      · simp [lookupB, hk] at h
      · simp only [lookupB, if_neg hk] at h
        simp [insertBinding, hk, ih h]

theorem registerHandlers_eq (a : Artifact) (name : String) (l : List (String × String))
    (hall : ∀ p ∈ l, a.handlerSym p.2 = some true) :
    ∀ reg, registerHandlers a name l reg = .ok (insertAll name l reg) := by
  induction l with
  | nil => intro reg; simp [registerHandlers, insertAll]
  | cons hd tl ih =>
      intro reg
      obtain ⟨k, f⟩ := hd
      have hh : a.handlerSym f = some true := hall (k, f) (by simp)
      simp only [registerHandlers, hh, insertAll]
      exact ih (fun p hp => hall p (by simp [hp])) _

theorem registerHandlers_ok_handlers (a : Artifact) (name : String)
    (l : List (String × String)) :
    ∀ reg reg', registerHandlers a name l reg = .ok reg' →
      ∀ p ∈ l, a.handlerSym p.2 = some true := by
  induction l with
  | nil => intro _ _ _ p hp; simp at hp
  | cons hd tl ih =>
      intro reg reg' hok p hp
      obtain ⟨k, f⟩ := hd
      rcases hsym : a.handlerSym f with _ | ok
      · simp [registerHandlers, hsym] at hok
      · rcases ok with _ | _
        · simp [registerHandlers, hsym] at hok
        · simp only [registerHandlers, hsym] at hok
          rcases List.mem_cons.mp hp with hp | hp
          · rw [hp]; exact hsym
          · exact ih _ _ hok p hp

theorem insertAll_lookup_not_mem (name : String) (l : List (String × String))
    (k : String) (hk : k ∉ l.map Prod.fst) :
    ∀ reg : Registry, (insertAll name l reg).lookup k = reg.lookup k := by
  induction l with
  | nil => intro reg; simp [insertAll]
  | cons hd tl ih =>
      intro reg
      obtain ⟨k0, f0⟩ := hd
      simp only [List.map_cons, List.mem_cons] at hk
      push_neg at hk
      rw [insertAll, ih hk.2]
      exact lookupB_insert_ne _ _ _ _ hk.1

theorem insertAll_lookup_mem (name : String) (l : List (String × String))
    (hnodup : (l.map Prod.fst).Nodup) (k f : String) (hmem : (k, f) ∈ l) :
    ∀ reg : Registry, (insertAll name l reg).lookup k = some ⟨name, f⟩ := by
  induction l with
  | nil => simp at hmem
  | cons hd tl ih =>
      intro reg
      obtain ⟨k0, f0⟩ := hd
      simp only [List.map_cons, List.nodup_cons] at hnodup
      rcases List.mem_cons.mp hmem with heq | hmem
      · cases heq
        rw [insertAll, insertAll_lookup_not_mem name tl k hnodup.1]
        exact lookupB_insert_self _ _ _
      · rw [insertAll]
        exact ih hnodup.2 hmem _

theorem insertAll_length (name : String) (l : List (String × String))
    (hnodup : (l.map Prod.fst).Nodup) :
    ∀ reg : Registry, (∀ k ∈ l.map Prod.fst, reg.lookup k = none) →
      (insertAll name l reg).bindings.length = reg.bindings.length + l.length := by
  induction l with
  | nil => intro reg _; simp [insertAll]
  | cons hd tl ih =>
      intro reg hfresh
      obtain ⟨k0, f0⟩ := hd
      simp only [List.map_cons, List.nodup_cons] at hnodup
      have hk0 : reg.lookup k0 = none := hfresh k0 (by simp)
      have hrest : ∀ k ∈ tl.map Prod.fst,
          (reg.registerOpcode k0 ⟨name, f0⟩).lookup k = none := by
        intro k hk
        have hne : k ≠ k0 := fun hh => hnodup.1 (hh ▸ hk)
        rw [Registry.lookup, Registry.registerOpcode, lookupB_insert_ne _ _ _ _ hne]
        exact hfresh k (by simp [hk])
      rw [insertAll, ih hnodup.2 _ hrest]
      show _ = reg.bindings.length + (tl.length + 1)
      rw [Registry.registerOpcode]
      simp only [length_insert_not_mem reg.bindings k0 _ hk0]
      omega

/-! ### Claims C4 and C8 -/

/-- Claim C4: for every load-time contract violation — the artifact fails to
open, the mandatory `Register` export is missing, the `Register` result fails
schema decoding, a declared handler symbol is missing, or a declared handler
symbol has the wrong signature — `RegisterPlugin` terminates the process
(exit or panic) rather than returning an error. -/
theorem C4_load_errors_fatal (reg : Registry) (a : Artifact) (h : loadViolation a) :
    (RegisterPlugin reg a).isFatal = true := by
  rcases hres : RegisterPlugin reg a with c | _ | r
  · rfl
  · rfl
  · exfalso
    unfold RegisterPlugin at hres
    by_cases h1 : a.openOk = false
    · rw [if_pos h1] at hres; cases hres
    · rw [if_neg h1] at hres
      by_cases h2 : a.registerSymPresent = false
      · rw [if_pos h2] at hres; cases hres
      · rw [if_neg h2] at hres
        by_cases h3 : a.registerSymTyped = false
        · rw [if_pos h3] at hres; cases hres
        · rw [if_neg h3] at hres
          rcases hdec : a.decoded with _ | info
          · rw [hdec] at hres; cases hres
          · rw [hdec] at hres
            rcases h with h | h | h | h | ⟨info', hinfo', p, hp, hbad⟩
            · exact h1 h
            · exact h2 h
            · exact h3 h
            · rw [hdec] at h; cases h
            · rw [hdec] at hinfo'
              injection hinfo' with he
              subst he
              exact hbad
                (registerHandlers_ok_handlers a info.PluginName info.OpCode reg r hres p hp)


theorem C4_load_errors_fatal_witness : (RegisterPlugin ⟨[]⟩ badArtifact).isFatal = true :=
  C4_load_errors_fatal ⟨[]⟩ badArtifact (Or.inl rfl)

/-- Claim C8: for every valid descriptor declaring N distinct opcodes, a
successful `RegisterPlugin` run inserts exactly N bindings into the registry,
one keyed by each declared event name, each bound to the handler symbol the
descriptor names for that event; the second conjunct holds for an arbitrary
starting registry, so a later registration for an already-present event name
overwrites the earlier binding (last-writer-wins). -/
theorem C8_register_inserts_all (reg : Registry) (a : Artifact) (info : RegisterInfo)
    (hopen : a.openOk = true) (hsym : a.registerSymPresent = true)
    (htyped : a.registerSymTyped = true) (hdec : a.decoded = some info)
    (hnodup : (info.OpCode.map Prod.fst).Nodup)
    (hhandlers : ∀ p ∈ info.OpCode, a.handlerSym p.2 = some true) :
    RegisterPlugin reg a = .ok (insertAll info.PluginName info.OpCode reg)
    ∧ (∀ p ∈ info.OpCode,
        (insertAll info.PluginName info.OpCode reg).lookup p.1 =
          some ⟨info.PluginName, p.2⟩)
    ∧ (∀ k, k ∉ info.OpCode.map Prod.fst →
        (insertAll info.PluginName info.OpCode reg).lookup k = reg.lookup k)
    ∧ (reg.bindings = [] →
        (insertAll info.PluginName info.OpCode reg).bindings.length =
          info.OpCode.length) := by
  refine ⟨?_, ?_, ?_, ?_⟩
  · unfold RegisterPlugin
    rw [if_neg (by simp [hopen]), if_neg (by simp [hsym]), if_neg (by simp [htyped]), hdec]
    exact registerHandlers_eq a info.PluginName info.OpCode hhandlers reg
  · intro p hp
    obtain ⟨k, f⟩ := p
    exact insertAll_lookup_mem info.PluginName info.OpCode hnodup k f hp reg
  · intro k hk
    exact insertAll_lookup_not_mem info.PluginName info.OpCode k hk reg
  · intro hb
    have hlen := insertAll_length info.PluginName info.OpCode hnodup reg
      (fun k _ => by simp [Registry.lookup, hb, lookupB])
    simpa [hb] using hlen


theorem C8_register_inserts_all_witness :
    (insertAll "ext1" [("TXEND", "OnTxEnd"), ("TXSTART", "OnTxStart")]
      ⟨[]⟩).bindings.length = 2 :=
  (C8_register_inserts_all ⟨[]⟩ goodArtifact
    { PluginName := "ext1", OpCode := [("TXEND", "OnTxEnd"), ("TXSTART", "OnTxStart")] }
    rfl rfl rfl rfl (by decide) (by decide)).2.2.2 rfl

/-! ### Trace-shape lemmas for `applyTransaction` -/

theorem filter_single_dispatch_ne (e n : String) (p : Payload) (hne : n ≠ e) :
    [Event.dispatch n p].filter (isDispatchOf e) = [] := by
  simp [isDispatchOf, hne]

theorem regName_ne_of (reg : Registry) (e n : String)
    (hg : reg.getOpcodeRegister n = true)
    (h : reg.getOpcodeRegister e = false ∨ e ≠ n) : n ≠ e := by
  rcases h with h | h
  · intro he
    rw [he] at hg
    rw [h] at hg
    exact Bool.noConfusion hg
  · exact Ne.symm h

theorem revertTrace_filter_dispatch (d : DzdState) (e : String) :
    (revertTrace d).filter (isDispatchOf e) = [] := by
  unfold revertTrace
  split <;> simp [isDispatchOf]

theorem revertTrace_filter_revert (d : DzdState) :
    (revertTrace d).filter isRevertEvent = revertTrace d := by
  unfold revertTrace
  split <;> simp [isRevertEvent]

theorem revertTrace_filter_reconfig (d : DzdState) :
    (revertTrace d).filter isReconfigEvent = [] := by
  unfold revertTrace
  split <;> simp [isReconfigEvent]

theorem errEndTrace_filter_dispatch (reg : Registry) (tx : TxInfo) (result : ExecResult)
    (e : String) (h : reg.getOpcodeRegister e = false ∨ e ≠ "EXTERNALINFOEND") :
    (errEndTrace reg tx result).filter (isDispatchOf e) = [] := by
  unfold errEndTrace
  rcases hg : reg.getOpcodeRegister "EXTERNALINFOEND" with _ | _
  · simp
  · simp only [if_true]
    exact filter_single_dispatch_ne e _ _ (regName_ne_of reg e _ hg h)

theorem errEndTrace_filter_revert (reg : Registry) (tx : TxInfo) (result : ExecResult) :
    (errEndTrace reg tx result).filter isRevertEvent = [] := by
  unfold errEndTrace
  split <;> simp [isRevertEvent]

theorem errEndTrace_filter_reconfig (reg : Registry) (tx : TxInfo) (result : ExecResult) :
    (errEndTrace reg tx result).filter isReconfigEvent = [] := by
  unfold errEndTrace
  split <;> simp [isReconfigEvent]

theorem finEndTrace_filter_dispatch (reg : Registry) (ext : ExtEnv) (tx : TxInfo)
    (msg : Msg) (result : ExecResult) (e : String)
    (h : reg.getOpcodeRegister e = false ∨ e ≠ "EXTERNALINFOEND") :
    (finEndTrace reg ext tx msg result).filter (isDispatchOf e) = [] := by
  unfold finEndTrace
  rcases hg : reg.getOpcodeRegister "EXTERNALINFOEND" with _ | _
  · split <;> simp
  · have hne := regName_ne_of reg e _ hg h
    split <;> simp only [if_true] <;> exact filter_single_dispatch_ne e _ _ hne

theorem finEndTrace_filter_revert (reg : Registry) (ext : ExtEnv) (tx : TxInfo)
    (msg : Msg) (result : ExecResult) :
    (finEndTrace reg ext tx msg result).filter isRevertEvent = [] := by
  unfold finEndTrace
  split <;> split <;> simp [isRevertEvent]

theorem finEndTrace_filter_reconfig (reg : Registry) (ext : ExtEnv) (tx : TxInfo)
    (msg : Msg) (result : ExecResult) :
    (finEndTrace reg ext tx msg result).filter isReconfigEvent = [] := by
  unfold finEndTrace
  split <;> split <;> simp [isReconfigEvent]

theorem txendTrace_filter_dispatch (reg : Registry) (e : String)
    (h : reg.getOpcodeRegister e = false ∨ e ≠ "TXEND") :
    (txendTrace reg).filter (isDispatchOf e) = [] := by
  unfold txendTrace
  rcases hg : reg.getOpcodeRegister "TXEND" with _ | _
  · simp
  · have hne := regName_ne_of reg e _ hg h
    simp [isDispatchOf, hne]

theorem txendTrace_filter_revert (reg : Registry) :
    (txendTrace reg).filter isRevertEvent = [] := by
  unfold txendTrace
  split <;> simp [isRevertEvent]

theorem txendTrace_filter_reconfig (reg : Registry) :
    (txendTrace reg).filter isReconfigEvent = [] := by
  unfold txendTrace
  split <;> simp [isReconfigEvent]

theorem startTxTrace_filter_dispatch (reg : Registry) (e : String)
    (h : reg.getOpcodeRegister e = false ∨ e ≠ "TXSTART") :
    (startTxTrace reg).filter (isDispatchOf e) = [] := by
  unfold startTxTrace
  rcases hg : reg.getOpcodeRegister "TXSTART" with _ | _
  · simp
  · simp only [if_true]
    exact filter_single_dispatch_ne e _ _ (regName_ne_of reg e _ hg h)

theorem startTxTrace_filter_reconfig (reg : Registry) :
    (startTxTrace reg).filter isReconfigEvent = [] := by
  unfold startTxTrace
  split <;> simp [isReconfigEvent]

theorem externalStartTrace_filter_dispatch (reg : Registry) (ext : ExtEnv)
    (header : Header) (tx : TxInfo) (msg : Msg) (e : String)
    (h : reg.getOpcodeRegister e = false ∨ e ≠ "EXTERNALINFOSTART") :
    (externalStartTrace reg ext header tx msg).filter (isDispatchOf e) = [] := by
  unfold externalStartTrace
  rcases hg : reg.getOpcodeRegister "EXTERNALINFOSTART" with _ | _
  · simp
  · simp only [if_true]
    exact filter_single_dispatch_ne e _ _ (regName_ne_of reg e _ hg h)

theorem externalStartTrace_filter_reconfig (reg : Registry) (ext : ExtEnv)
    (header : Header) (tx : TxInfo) (msg : Msg) :
    (externalStartTrace reg ext header tx msg).filter isReconfigEvent = [] := by
  unfold externalStartTrace
  split <;> simp [isReconfigEvent]

theorem blockInfoTrace_filter_dispatch (reg : Registry) (header : Header) (e : String)
    (h : reg.getOpcodeRegister e = false ∨ e ≠ "handle_BLOCK_INFO") :
    (blockInfoTrace reg header).filter (isDispatchOf e) = [] := by
  unfold blockInfoTrace
  rcases hg : reg.getOpcodeRegister "handle_BLOCK_INFO" with _ | _
  · simp
  · simp only [if_true]
    exact filter_single_dispatch_ne e _ _ (regName_ne_of reg e _ hg h)

theorem applyTransaction_filter_dispatch (reg : Registry) (config : Config)
    (ext : ExtEnv) (bn : Nat) (bh : String) (tx : TxInfo) (msg : Msg)
    (execErr : Bool) (result : ExecResult) (g : Nat) (d : DzdState) (e : String)
    (h1 : reg.getOpcodeRegister e = false ∨ e ≠ "EXTERNALINFOEND")
    (h2 : reg.getOpcodeRegister e = false ∨ e ≠ "TXEND") :
    (applyTransaction reg config ext bn bh tx msg execErr result g d).trace.filter
      (isDispatchOf e) = [] := by
  cases execErr with
  | true =>
      simp [applyTransaction, List.filter_append, revertTrace_filter_dispatch,
        errEndTrace_filter_dispatch reg tx result e h1]
  | false =>
      by_cases hs : d.CALL_STACK = [] <;>
        simp [applyTransaction, hs, List.filter_append, revertTrace_filter_dispatch,
          finEndTrace_filter_dispatch reg ext tx msg result e h1,
          txendTrace_filter_dispatch reg e h2]

theorem applyTransaction_filter_revert (reg : Registry) (config : Config)
    (ext : ExtEnv) (bn : Nat) (bh : String) (tx : TxInfo) (msg : Msg)
    (execErr : Bool) (result : ExecResult) (g : Nat) (d : DzdState) :
    (applyTransaction reg config ext bn bh tx msg execErr result g d).trace.filter
      isRevertEvent = revertTrace d := by
  cases execErr with
  | true =>
      simp [applyTransaction, List.filter_append, revertTrace_filter_revert,
        errEndTrace_filter_revert]
  | false =>
      by_cases hs : d.CALL_STACK = [] <;>
        simp [applyTransaction, hs, List.filter_append, revertTrace_filter_revert,
          finEndTrace_filter_revert, txendTrace_filter_revert]

theorem applyTransaction_filter_reconfig (reg : Registry) (config : Config)
    (ext : ExtEnv) (bn : Nat) (bh : String) (tx : TxInfo) (msg : Msg)
    (execErr : Bool) (result : ExecResult) (g : Nat) (d : DzdState) :
    (applyTransaction reg config ext bn bh tx msg execErr result g d).trace.filter
      isReconfigEvent = [] := by
  cases execErr with
  | true =>
      simp [applyTransaction, List.filter_append, revertTrace_filter_reconfig,
        errEndTrace_filter_reconfig]
  | false =>
      by_cases hs : d.CALL_STACK = [] <;>
        simp [applyTransaction, hs, List.filter_append, revertTrace_filter_reconfig,
          finEndTrace_filter_reconfig, txendTrace_filter_reconfig]

theorem applyTransaction_flag_preserved (reg : Registry) (config : Config)
    (ext : ExtEnv) (bn : Nat) (bh : String) (tx : TxInfo) (msg : Msg)
    (execErr : Bool) (result : ExecResult) (g : Nat) (d : DzdState) :
    (applyTransaction reg config ext bn bh tx msg execErr result g d).dzd.BLOCKING_FLAG
      = d.BLOCKING_FLAG := by
  cases execErr with
  | true => simp [applyTransaction]
  | false => by_cases hs : d.CALL_STACK = [] <;> simp [applyTransaction, hs]

theorem applyTransaction_layer_preserved (reg : Registry) (config : Config)
    (ext : ExtEnv) (bn : Nat) (bh : String) (tx : TxInfo) (msg : Msg)
    (execErr : Bool) (result : ExecResult) (g : Nat) (d : DzdState) :
    (applyTransaction reg config ext bn bh tx msg execErr result g d).dzd.CALL_LAYER
      = d.CALL_LAYER := by
  cases execErr with
  | true => simp [applyTransaction]
  | false => by_cases hs : d.CALL_STACK = [] <;> simp [applyTransaction, hs]

theorem processTxs_filter_dispatch (reg : Registry) (config : Config) (bn : Nat)
    (bh : String) (e : String)
    (h1 : reg.getOpcodeRegister e = false ∨ e ≠ "EXTERNALINFOEND")
    (h2 : reg.getOpcodeRegister e = false ∨ e ≠ "TXEND")
    (txs : List TxInput) :
    ∀ (d : DzdState) (g : Nat),
      (processTxs reg config bn bh txs d g).trace.filter (isDispatchOf e) = [] := by
  induction txs with
  | nil => intro d g; simp [processTxs]
  | cons t rest ih =>
      intro d g
      rcases hm : t.msgErr with _ | _
      · simp only [processTxs, hm, Bool.false_eq_true, if_false]
        rcases hres : (applyTransaction reg config t.ext bn bh t.tx t.msg t.execErr
            t.result g (t.execEffect d)).res with _ | _ | r <;>
          simp only [hres] <;>
          simp [List.filter_append,
            applyTransaction_filter_dispatch reg config t.ext bn bh t.tx t.msg
              t.execErr t.result g (t.execEffect d) e h1 h2, ih]
      · simp [processTxs, hm]

/-! ### Claims C1, C3, C5, C10 -/

/-- Claim C1 counterexample: at a call-end with the rollback flag set, the
state store receives exactly one revert-to-snapshot instruction, but —
contrary to the claim — the flag is NOT cleared before control returns: it is
still `true` in the post-state, so the claim's "flag is false for all
subsequent call-ends" fails at this input. -/
theorem C1_counterexample :
    (applyTransaction regEIE cfgC extC 100 "0xH" txC msgC false resC 0
      dFlagC).trace.filter isRevertEvent = [Event.revert 5]
    ∧ (applyTransaction regEIE cfgC extC 100 "0xH" txC msgC false resC 0
        dFlagC).dzd.BLOCKING_FLAG = true := by
  constructor <;> decide

/-- Claim C1 (amended): at a call-end with the rollback flag set, the
dispatcher instructs the state store to revert to the recorded snapshot id
exactly once before returning control to the caller; the flag is NOT cleared
at the call-end (the post-state flag equals the pre-state flag) — it is only
cleared by the transaction-start reset that the exported `ApplyTransaction`
performs for the next transaction. -/
theorem C1_rollback_once_flag_uncleared (reg : Registry) (config : Config)
    (ext : ExtEnv) (bn : Nat) (bh : String) (tx : TxInfo) (msg : Msg)
    (execErr : Bool) (result : ExecResult) (g : Nat) (d : DzdState)
    (h : String) (mto : Option String) :
    (applyTransaction reg config ext bn bh tx msg execErr result g d).trace.filter
        isRevertEvent
      = (if d.BLOCKING_FLAG = true then [Event.revert d.PLUGIN_SNAPSHOT_ID] else [])
    ∧ (applyTransaction reg config ext bn bh tx msg execErr result g d).dzd.BLOCKING_FLAG
      = d.BLOCKING_FLAG
    ∧ (txStartReset h mto).BLOCKING_FLAG = false := by
  refine ⟨?_, applyTransaction_flag_preserved reg config ext bn bh tx msg execErr result g d, ?_⟩
  · rw [applyTransaction_filter_revert]
    rfl
  · cases mto <;> rfl

/-- Claim C3 counterexample: starting from the transaction-start reset for a
message with a direct target (`CALL_LAYER = 1`, one stack frame), the
call-end pop of `applyTransaction` leaves `CALL_LAYER = 1` while the stack is
empty, so `CALL_LAYER == len(CALL_STACK)` does NOT hold after the pop. -/
theorem C3_counterexample :
    (applyTransaction ⟨[]⟩ cfgC extC 100 "0xH" txC msgC false resC 0
        dC).dzd.CALL_LAYER = 1
    ∧ (applyTransaction ⟨[]⟩ cfgC extC 100 "0xH" txC msgC false resC 0
        dC).dzd.CALL_STACK = []
    ∧ ¬((applyTransaction ⟨[]⟩ cfgC extC 100 "0xH" txC msgC false resC 0
          dC).dzd.CALL_LAYER
        = ((applyTransaction ⟨[]⟩ cfgC extC 100 "0xH" txC msgC false resC 0
            dC).dzd.CALL_STACK.length : Int)) := by
  refine ⟨by decide, by decide, by decide⟩

/-- Claim C3 (amended): `CALL_LAYER == len(CALL_STACK)` holds after the
transaction-start reset/push, but the call-end pop of `applyTransaction`
removes one frame WITHOUT decrementing `CALL_LAYER`: afterwards
`CALL_LAYER` is unchanged and the stack is one shorter, so the invariant is
broken by exactly one after every such pop. -/
theorem C3_layer_stack_after_reset_and_pop (reg : Registry) (config : Config)
    (ext : ExtEnv) (bn : Nat) (bh : String) (tx : TxInfo) (msg : Msg)
    (result : ExecResult) (g : Nat) (d : DzdState) (h : String) (mto : Option String)
    (hstack : d.CALL_STACK ≠ []) :
    (txStartReset h mto).CALL_LAYER = ((txStartReset h mto).CALL_STACK.length : Int)
    ∧ (applyTransaction reg config ext bn bh tx msg false result g d).dzd.CALL_LAYER
      = d.CALL_LAYER
    ∧ (applyTransaction reg config ext bn bh tx msg false result g
        d).dzd.CALL_STACK.length + 1 = d.CALL_STACK.length := by
  refine ⟨?_, applyTransaction_layer_preserved reg config ext bn bh tx msg false result g d, ?_⟩
  · cases mto <;> rfl
  · simp only [applyTransaction, Bool.false_eq_true, if_false, if_neg hstack]
    rw [List.length_dropLast]
    have hpos : 0 < d.CALL_STACK.length := List.length_pos.mpr hstack
    omega

theorem C3_layer_stack_after_reset_and_pop_witness :
    (applyTransaction ⟨[]⟩ cfgC extC 100 "0xH" txC msgC false resC 0
      dC).dzd.CALL_STACK.length + 1 = dC.CALL_STACK.length :=
  (C3_layer_stack_after_reset_and_pop ⟨[]⟩ cfgC extC 100 "0xH" txC msgC resC 0
    dC "0xT" (some "0xA") (by decide)).2.2

/-- Claim C5: after the transaction-start reset of `ApplyTransaction`, the
call layer is 1 when the message has a direct target and 0 otherwise, the
all-contracts-touched sequence holds at most the target, the rollback flag is
false, the snapshot id is 0, and the call stack, valid-call map and tx hash
are freshly reset. -/
theorem C5_txstart_reset (h : String) (mto : Option String) :
    (txStartReset h mto).CALL_LAYER = (match mto with | some _ => 1 | none => 0)
    ∧ (txStartReset h mto).CALL_STACK =
        (match mto with | some a => [a ++ "#1"] | none => [])
    ∧ (txStartReset h mto).ALL_STACK = (match mto with | some a => [a] | none => [])
    ∧ (txStartReset h mto).BLOCKING_FLAG = false
    ∧ (txStartReset h mto).PLUGIN_SNAPSHOT_ID = 0
    ∧ (txStartReset h mto).CALLVALID_MAP = []
    ∧ (txStartReset h mto).TxHash = h
    ∧ (txStartReset h mto).EXTERNAL_FLAG = true := by
  cases mto with
  | none => exact ⟨rfl, rfl, rfl, rfl, rfl, rfl, rfl, rfl⟩
  | some a =>
      refine ⟨rfl, ?_, rfl, rfl, rfl, rfl, rfl, rfl⟩
      show [a ++ "#" ++ toString (0 + 1 : Int)] = [a ++ "#1"]
      rw [String.append_assoc]
      congr 1

/-- Claim C10: for a contract-creation message (no direct target), the
transaction-start reset pushes no frame, yet `applyTransaction`
unconditionally pops one frame at call end; with no nested call having
pushed a frame in between, the pop executes on an empty stack and the Go
slice expression `CALL_STACK[:len(CALL_STACK)-1]` underflows (runtime
panic). -/
theorem C10_pop_underflow (reg : Registry) (config : Config) (ext : ExtEnv)
    (bn : Nat) (bh : String) (tx : TxInfo) (msg : Msg) (result : ExecResult)
    (g : Nat) (h : String) (hto : msg.To = none) :
    (txStartReset h msg.To).CALL_STACK = []
    ∧ (applyTransaction reg config ext bn bh tx msg false result g
        (txStartReset h msg.To)).res = .goPanic := by
  rw [hto]
  exact ⟨rfl, rfl⟩

theorem C10_pop_underflow_witness :
    (applyTransaction ⟨[]⟩ cfgC extC 100 "0xH" txC msgCreateC false resC 0
      (txStartReset "0xT" msgCreateC.To)).res = ApplyRes.goPanic :=
  (C10_pop_underflow ⟨[]⟩ cfgC extC 100 "0xH" txC msgCreateC resC 0 "0xT" rfl).2

/-! ### Claims C6, C2, C7, C9 -/

/-- Claim C6 counterexample: a transaction processed to completion (a receipt
is returned) with no handler bound to `TXEND` — the dispatcher is NEVER
stopped (no `Stop()` in the trace), because the `Stop()` call sits inside the
`if TXEND registered` block; so "then stops the dispatcher for that
transaction" fails for this completed transaction. -/
theorem C6_counterexample :
    regEIE.getOpcodeRegister "TXEND" = false
    ∧ (applyTransaction regEIE cfgC extC 100 "0xH" txC msgC false resC 0 dC).res.isOk
      = true
    ∧ (applyTransaction regEIE cfgC extC 100 "0xH" txC msgC false resC 0
        dC).trace.filter isStopEvent = [] := by
  refine ⟨by decide, by decide, by decide⟩

/-- Claim C6 (amended): for every transaction processed to completion WITH a
handler bound to `TXEND` (and one bound to `EXTERNALINFOEND`), the controller
dispatches `TXEND` immediately after the `EXTERNALINFOEND` dispatch and then
stops the dispatcher; when no `TXEND` handler is bound, neither the `TXEND`
dispatch nor the `Stop()` happens (see the counterexample). -/
theorem C6_txend_then_stop (reg : Registry) (config : Config) (ext : ExtEnv)
    (bn : Nat) (bh : String) (tx : TxInfo) (msg : Msg) (result : ExecResult)
    (g : Nat) (d : DzdState)
    (hTX : reg.getOpcodeRegister "TXEND" = true)
    (hEIE : reg.getOpcodeRegister "EXTERNALINFOEND" = true)
    (hstack : d.CALL_STACK ≠ []) :
    (applyTransaction reg config ext bn bh tx msg false result g d).res.isOk = true
    ∧ ∃ p, (applyTransaction reg config ext bn bh tx msg false result g d).trace
        = revertTrace d ++
          [.dispatch "EXTERNALINFOEND" p, .dispatch "TXEND" (.pflag "TXEND"), .stop] := by
  constructor
  · simp [applyTransaction, hstack, ApplyRes.isOk]
  · rcases hf : result.failed with _ | _
    · refine ⟨.ptrans { tcendAfterCreate reg ext tx msg result with IsSuccess := true }, ?_⟩
      simp [applyTransaction, hstack, finEndTrace, hf, hEIE, txendTrace, hTX]
    · refine ⟨.ptrans { tcendAfterCreate reg ext tx msg result with IsSuccess := false }, ?_⟩
      simp [applyTransaction, hstack, finEndTrace, hf, hEIE, txendTrace, hTX]

theorem C6_txend_then_stop_witness :
    (applyTransaction regTXEIE cfgC extC 100 "0xH" txC msgC false resC 0 dC).res.isOk
      = true :=
  (C6_txend_then_stop regTXEIE cfgC extC 100 "0xH" txC msgC resC 0 dC
    (by decide) (by decide) (by decide)).1

/-- Claim C2: for every event name with no handler bound in the registry (and
no pending hot-reconfiguration that could change the registry), dispatching
that event is a no-op at every hook point: neither the exported
`ApplyTransaction` nor `Process` emits any dispatch of that name — in the
embedding the payload construction (`SendBlockInfo`/`SendTransInfo`/
`SendFlag`) sits inside the same registration guard, so the payload is never
built either. -/
theorem C2_unbound_event_noop (config : Config) (ext : ExtEnv)
    (artifactAt : String → Artifact) (header : Header) (tx : TxInfo)
    (msgErr : Bool) (msg : Msg) (execEffect : DzdState → DzdState)
    (execErr : Bool) (result : ExecResult) (usedGas : Nat) (reg : Registry)
    (dn : DanState) (d0 : DzdState) (txs : List TxInput) (e : String)
    (hreg : reg.getOpcodeRegister e = false)
    (hIsReg : dn.IsReg = false) (hIsUn : dn.IsUn = false) :
    (ApplyTransaction config ext artifactAt header tx msgErr msg execEffect execErr
        result usedGas reg dn d0).trace.filter (isDispatchOf e) = []
    ∧ (Process reg config header txs d0).trace.filter (isDispatchOf e) = [] := by
  constructor
  · cases msgErr with
    | true => simp [ApplyTransaction]
    | false =>
        simp only [ApplyTransaction, Bool.false_eq_true, if_false, hIsReg,
          applyTransactionAfterReg, hIsUn, applyTransactionAfterDrain]
        simp [List.filter_append, isDispatchOf,
          startTxTrace_filter_dispatch reg e (Or.inl hreg),
          externalStartTrace_filter_dispatch reg ext header tx msg e (Or.inl hreg),
          applyTransaction_filter_dispatch reg config ext header.Number header.Hash
            tx msg execErr result usedGas (execEffect (txStartReset tx.hash msg.To))
            e (Or.inl hreg) (Or.inl hreg)]
  · simp [Process, List.filter_append,
      blockInfoTrace_filter_dispatch reg header e (Or.inl hreg),
      processTxs_filter_dispatch reg config header.Number header.Hash e
        (Or.inl hreg) (Or.inl hreg) txs d0 0]

theorem C2_unbound_event_noop_witness :
    (ApplyTransaction cfgC extC (fun _ => emptyOpsArtifact) hdrC txC false msgC id
      false resC 0 ⟨[]⟩ dnIdle dCz).trace.filter (isDispatchOf "TXSTART") = [] :=
  (C2_unbound_event_noop cfgC extC (fun _ => emptyOpsArtifact) hdrC txC false msgC id
    false resC 0 ⟨[]⟩ dnIdle dCz [] "TXSTART" rfl rfl rfl).1

/-- Claim C7: at the start of a transaction's processing, a pending
register-extension request (path P) triggers exactly one `RegisterPlugin(P)`
invocation and a pending unregister request exactly one unregister
invocation (both before any event dispatch of the transaction), and the
pending-request flags and values are cleared. -/
theorem C7_drain_pending (config : Config) (ext : ExtEnv)
    (artifactAt : String → Artifact) (header : Header) (tx : TxInfo) (msg : Msg)
    (execEffect : DzdState → DzdState) (execErr : Bool) (result : ExecResult)
    (usedGas : Nat) (reg : Registry) (dn : DanState) (d0 : DzdState)
    (reg1 : Registry)
    (hIsReg : dn.IsReg = true) (hIsUn : dn.IsUn = true)
    (hload : RegisterPlugin reg (artifactAt dn.RegPath) = .ok reg1) :
    (ApplyTransaction config ext artifactAt header tx false msg execEffect execErr
        result usedGas reg dn d0).dan
      = { IsReg := false, RegPath := Clear, IsUn := false, UnPlg := Clear }
    ∧ ∃ rest,
        (ApplyTransaction config ext artifactAt header tx false msg execEffect
            execErr result usedGas reg dn d0).trace
          = .start :: .regPlugin dn.RegPath :: .unregPlugin :: rest
        ∧ rest.filter isReconfigEvent = [] := by
  constructor
  · simp [ApplyTransaction, hIsReg, hload, applyTransactionAfterReg, hIsUn,
      applyTransactionAfterDrain]
  · simp only [ApplyTransaction, Bool.false_eq_true, if_false, hIsReg, if_true,
      hload, applyTransactionAfterReg, hIsUn, applyTransactionAfterDrain]
    refine ⟨_, rfl, ?_⟩
    simp [List.filter_append, startTxTrace_filter_reconfig,
      externalStartTrace_filter_reconfig, applyTransaction_filter_reconfig]

theorem C7_drain_pending_witness :
    (ApplyTransaction cfgC extC (fun _ => emptyOpsArtifact) hdrC txC false msgC id
      false resC 0 ⟨[]⟩ dnBusy dCz).dan
      = { IsReg := false, RegPath := Clear, IsUn := false, UnPlg := Clear } :=
  (C7_drain_pending cfgC extC (fun _ => emptyOpsArtifact) hdrC txC msgC id
    false resC 0 ⟨[]⟩ dnBusy dCz ⟨[]⟩ rfl rfl rfl).1

/-- Claim C9: when a handler is bound to `handle_BLOCK_INFO` and a block with
header number 100 is processed, exactly one block-info dispatch occurs, it is
the first event of the block's trace (before any transaction's events), and
its payload's block-number field is the decimal string "100". -/
theorem C9_blockinfo_once (reg : Registry) (config : Config) (header : Header)
    (txs : List TxInput) (d0 : DzdState)
    (hreg : reg.getOpcodeRegister "handle_BLOCK_INFO" = true)
    (hnum : header.Number = 100) :
    (Process reg config header txs d0).trace.filter (isDispatchOf "handle_BLOCK_INFO")
      = [.dispatch "handle_BLOCK_INFO" (.pblock (blockCollectorBuild header))]
    ∧ (blockCollectorBuild header).Number = "100"
    ∧ ∃ rest, (Process reg config header txs d0).trace
        = .dispatch "handle_BLOCK_INFO" (.pblock (blockCollectorBuild header)) :: rest := by
  refine ⟨?_, ?_, ?_⟩
  · simp [Process, List.filter_append, blockInfoTrace, hreg, isDispatchOf,
      processTxs_filter_dispatch reg config header.Number header.Hash
        "handle_BLOCK_INFO" (Or.inr (by decide)) (Or.inr (by decide)) txs d0 0]
  · have hN : (blockCollectorBuild header).Number = toString header.Number := rfl
    rw [hN, hnum]
    rfl
  · simp only [Process, blockInfoTrace, hreg, if_true]
    exact ⟨_, rfl⟩

theorem C9_blockinfo_once_witness : (blockCollectorBuild hdrC).Number = "100" :=
  (C9_blockinfo_once regBlk cfgC hdrC [] dCz rfl rfl).2.1
